import Mathlib

/-!
Verification of the entrolytics react SDK dispatch layer: a shallow
embedding of the provider context (script injection, tracker bridge,
dispatch operations), the direct-HTTP trackers (web vitals, form
tracking) and the zero-config Analytics component, together with
theorems settling the stated behavioural properties.

Conventions of the embedding:
- JS objects are association lists where a later binding for a key
  shadows an earlier one (object spread appends on the right).
- JS truthiness on strings is modelled by strTruthy (empty string and
  undefined are falsy); the destructuring default and the nullish read
  are modelled by Option.getD.
- Callbacks and network outcomes are passed explicitly; observable
  actions (invoking beforeSend, invoking the global tracker object,
  scheduling a poll, posting over HTTP, logging) are reified as data.
-/

namespace Entrolytics

/-- JSON-like values carried in event payloads. -/
inductive JVal where
  | str : String → JVal
  | num : Int → JVal
  | bool : Bool → JVal
  | obj : List (String × JVal) → JVal
  | undef : JVal

/-- A JS object: insertion-ordered key/value bindings, later bindings win. -/
abbrev Obj := List (String × JVal)

/-- Property read on a JS object: the value of the last binding of the key. -/
def Obj.get : Obj → String → Option JVal
  | [], _ => none
  | (k2, v) :: rest, k =>
    match Obj.get rest k with
    | some r => some r
    | none => if k2 = k then some v else none

/-- JS truthiness of a possibly-undefined string: undefined and the empty
string are falsy. -/
def strTruthy : Option String → Bool
  | some s => s ≠ ""
  | none => false

/-- The JS expression a OR b on possibly-undefined strings. -/
def jsOrStr (a b : Option String) : Option String :=
  if strTruthy a then a else b

/-- The JS expression a OR b where the fallback is a present string. -/
def jsOrDefault (a : Option String) (b : String) : String :=
  match a with
  | some s => if s = "" then b else s
  | none => b

/-- The conditional property write pattern: if (v) target.key = v. -/
def strStamp (k : String) (v : Option String) : Obj :=
  match v with
  | some s => if s = "" then [] else [(k, JVal.str s)]
  | none => []

/-- A possibly-undefined event-data object spread into an object literal. -/
def spreadData (d : Option Obj) : Obj := d.getD []

/-- The value stored under the data key of the built track payload. -/
def optObjVal : Option Obj → JVal
  | some d => JVal.obj d
  | none => JVal.undef

/- ===== constants from src context ===== -/

def DEFAULT_HOST : String := "https://ng.entrolytics.click"

def SCRIPT_ID : String := "entrolytics-script"

/- ===== script loader (EntrolyticsProvider script-injection effect) ===== -/

/-- A script element as created by the injection effect. -/
structure ScriptEl where
  id : String
  src : String
  deferred : Bool
  dataset : List (String × String)
deriving DecidableEq

/-- Resolved configuration of the provider after destructuring defaults. -/
structure ProviderConfig where
  websiteId : String
  host : String
  autoTrack : Bool
  respectDnt : Bool
  domains : Option (List String)
  useEdgeRuntime : Bool
  tag : Option String
  excludeSearch : Bool
  excludeHash : Bool

/-- The regex replace of a single trailing slash on the host. -/
def stripTrailingSlash (s : String) : String :=
  if s.endsWith "/" then s.dropRight 1 else s

/-- The script element built by the injection effect, with src and data
attributes exactly as in the effect body. -/
def mkScript (cfg : ProviderConfig) : ScriptEl :=
  { id := SCRIPT_ID
    src := stripTrailingSlash cfg.host ++
      (if cfg.useEdgeRuntime then "/script-edge.js" else "/script.js")
    deferred := true
    dataset :=
      [("websiteId", cfg.websiteId)]
      ++ (if cfg.autoTrack then [] else [("autoTrack", "false")])
      ++ (if cfg.respectDnt then [("doNotTrack", "true")] else [])
      ++ (match cfg.domains with
          | some ds => if 0 < ds.length then [("domains", String.intercalate "," ds)] else []
          | none => [])
      ++ strStampAttr "tag" cfg.tag
      ++ (if cfg.excludeSearch then [("excludeSearch", "true")] else [])
      ++ (if cfg.excludeHash then [("excludeHash", "true")] else []) }
where
  /-- if (tag) script.dataset.tag = tag -/
  strStampAttr (k : String) (v : Option String) : List (String × String) :=
    match v with
    | some s => if s = "" then [] else [(k, s)]
    | none => []

def getElementById (doc : List ScriptEl) (i : String) : Option ScriptEl :=
  doc.find? (fun e => e.id = i)

/-- Number of elements of the document carrying a given id. -/
def countId (doc : List ScriptEl) (i : String) : Nat :=
  (doc.filter (fun e => e.id = i)).length

/-- Outcome of one run of the script-injection effect. -/
structure MountOutcome where
  doc : List ScriptEl
  isReady : Bool
  isLoaded : Bool
  injected : Bool
deriving DecidableEq

/-- The script-injection effect of EntrolyticsProvider: no-op without a
window; if an element with SCRIPT_ID already exists, mark loaded and ready
without creating anything; otherwise append a fresh script element (ready
only fires later, on script load). -/
def scriptInjectionEffect (hasWindow : Bool) (doc : List ScriptEl)
    (cfg : ProviderConfig) : MountOutcome :=
  if hasWindow = false then
    { doc := doc, isReady := false, isLoaded := false, injected := false }
  else
    match getElementById doc SCRIPT_ID with
    | some _ => { doc := doc, isReady := true, isLoaded := true, injected := false }
    | none =>
      { doc := doc ++ [mkScript cfg], isReady := false, isLoaded := false, injected := true }

/- ===== tracker bridge (waitForTracker) ===== -/

/-- The tryExecute loop of waitForTracker, observed for a bounded number of
checks. avail t states whether the global tracker object is present at the
t-th check. Returns the list of ticks at which the callback is invoked and
the number of setTimeout polls scheduled. -/
def tryExecute (avail : Nat → Bool) : Nat → Nat → List Nat × Nat
  | 0, _ => ([], 0)
  | fuel + 1, t =>
    if avail t then ([t], 0)
    else
      let r := tryExecute avail fuel (t + 1)
      (r.1, r.2 + 1)

/-- waitForTracker: without a window it returns immediately (no callback,
no poll); otherwise it runs tryExecute starting at tick 0. -/
def waitForTracker (hasWindow : Bool) (avail : Nat → Bool) (fuel : Nat) :
    List Nat × Nat :=
  if hasWindow then tryExecute avail fuel 0 else ([], 0)

/- ===== dispatch operations (fire-time callbacks) ===== -/

/-- The type of the beforeSend callback; a none result is the null
suppress sentinel. -/
abbrev BeforeSend := String → Obj → Option Obj

/-- Observable actions performed by a dispatch callback at fire time. -/
inductive Eff where
  | callBeforeSend (typ : String) (payload : Obj)
  | bridgeTrackNamed (eventName : String) (eventData : Option Obj)
  | bridgeTrackObj (payload : Obj)
  | bridgeIdentify (data : Obj)

def isBeforeSendEff : Eff → Bool
  | Eff.callBeforeSend _ _ => true
  | _ => false

def isBridgeEff : Eff → Bool
  | Eff.callBeforeSend _ _ => false
  | _ => true

/-- The object literal built at the top of the track callback. -/
def builtTrackPayload (eventName : String) (eventData : Option Obj) : Obj :=
  [("name", JVal.str eventName), ("data", optObjVal eventData)]

/-- The effects of the track callback: run beforeSend when configured,
abort on the null sentinel, otherwise invoke the global tracker with the
original eventName and eventData arguments. -/
def track (beforeSend : Option BeforeSend) (tag : Option String)
    (eventName : String) (eventData : Option Obj) : List Eff :=
  match beforeSend with
  | none => [Eff.bridgeTrackNamed eventName eventData]
  | some f =>
    match f "event" (builtTrackPayload eventName eventData) with
    | none => [Eff.callBeforeSend "event" (builtTrackPayload eventName eventData)]
    | some _ =>
      [Eff.callBeforeSend "event" (builtTrackPayload eventName eventData),
       Eff.bridgeTrackNamed eventName eventData]

/-- The value of the local payload variable of the track callback at the
point of the bridge invocation (none when the callback returned early on
the suppress sentinel). The tag read happens here, at fire time. -/
def trackLocalPayload (beforeSend : Option BeforeSend) (tag : Option String)
    (eventName : String) (eventData : Option Obj) : Option Obj :=
  match beforeSend with
  | none => some (builtTrackPayload eventName eventData ++ strStamp "tag" tag)
  | some f =>
    match f "event" (builtTrackPayload eventName eventData) with
    | none => none
    | some p => some (p ++ strStamp "tag" tag)

/-- The payload object built by the trackPageView callback. -/
def pageViewPayload (tag : Option String) (url referrer : Option String) : Obj :=
  strStamp "url" url ++ strStamp "referrer" referrer ++ strStamp "tag" tag

def trackPageView (tag : Option String) (url referrer : Option String) : List Eff :=
  [Eff.bridgeTrackObj (pageViewPayload tag url referrer)]

/-- The eventData object built by the trackRevenue callback: caller data
spread first, then revenue and currency, then the conditional tag write. -/
def revenueEventData (tag : Option String) (revenue : Int) (currency : String)
    (data : Option Obj) : Obj :=
  spreadData data ++ [("revenue", JVal.num revenue), ("currency", JVal.str currency)]
    ++ strStamp "tag" tag

def trackRevenue (tag : Option String) (eventName : String) (revenue : Int)
    (currency : Option String) (data : Option Obj) : List Eff :=
  [Eff.bridgeTrackNamed eventName
    (some (revenueEventData tag revenue (currency.getD "USD") data))]

def trackOutboundLink (url : String) (data : Option Obj) : List Eff :=
  [Eff.bridgeTrackNamed "outbound-link-click"
    (some (spreadData data ++ [("url", JVal.str url)]))]

def identify (data : Obj) : List Eff :=
  [Eff.bridgeIdentify data]

def identifyUser (userId : String) (traits : Option Obj) : List Eff :=
  [Eff.bridgeIdentify ([("id", JVal.str userId)] ++ spreadData traits)]

/- ===== provider event-loop machine ===== -/

/-- A dispatch call with its arguments as captured at call time. -/
inductive Call where
  | track (eventName : String) (eventData : Option Obj)
  | pageView (url referrer : Option String)
  | revenue (eventName : String) (revenue : Int) (currency : Option String) (data : Option Obj)
  | outbound (url : String) (data : Option Obj)
  | identify (data : Obj)
  | identifyUser (userId : String) (traits : Option Obj)

/-- Fire a pending call with the tag reference read at fire time. -/
def fireCall (beforeSend : Option BeforeSend) (tag : Option String) : Call → List Eff
  | Call.track n d => track beforeSend tag n d
  | Call.pageView u r => trackPageView tag u r
  | Call.revenue n rev cur d => trackRevenue tag n rev cur d
  | Call.outbound u d => trackOutboundLink u d
  | Call.identify d => identify d
  | Call.identifyUser u t => identifyUser u t

/-- State of the provider between event-loop turns: the mutable tag
reference, whether the global tracker object is installed, the calls whose
waitForTracker poll is outstanding, and the log of effects performed. -/
structure ProvState where
  tag : Option String
  trackerUp : Bool
  pending : List Call
  log : List Eff

def initialProvState : ProvState :=
  { tag := none, trackerUp := false, pending := [], log := [] }

/-- Event-loop actions: a dispatch call, a setTag call, the external
script installing the tracker object, and a poll tick firing outstanding
waitForTracker callbacks. -/
inductive ProvAction where
  | callOp (c : Call)
  | setTag (t : String)
  | trackerArrives
  | poll

def step (beforeSend : Option BeforeSend) (s : ProvState) : ProvAction → ProvState
  | ProvAction.callOp c =>
    if s.trackerUp then { s with log := s.log ++ fireCall beforeSend s.tag c }
    else { s with pending := s.pending ++ [c] }
  | ProvAction.setTag t => { s with tag := some t }
  | ProvAction.trackerArrives => { s with trackerUp := true }
  | ProvAction.poll =>
    if s.trackerUp then
      { s with pending := [],
               log := s.log ++ (s.pending.map (fireCall beforeSend s.tag)).flatten }
    else s

def runActions (beforeSend : Option BeforeSend) (s : ProvState)
    (acts : List ProvAction) : ProvState :=
  acts.foldl (step beforeSend) s

/- ===== form tracking (useFormTracking) ===== -/

inductive FormEventType where
  | start
  | field_focus
  | field_blur
  | field_error
  | submit
  | abandon
deriving DecidableEq

def formEventTypeName : FormEventType → String
  | FormEventType.start => "start"
  | FormEventType.field_focus => "field_focus"
  | FormEventType.field_blur => "field_blur"
  | FormEventType.field_error => "field_error"
  | FormEventType.submit => "submit"
  | FormEventType.abandon => "abandon"

/-- The FormEventData record handed to trackEvent; absent optional keys are
none. -/
structure FormEventData where
  eventType : FormEventType
  formId : Option String
  formName : Option String
  urlPath : Option String
  fieldName : Option String
  fieldType : Option String
  fieldIndex : Option Nat
  timeOnField : Option Nat
  timeSinceStart : Option Nat
  errorMessage : Option String
  success : Option Bool
deriving DecidableEq

/-- A FormEventData with only the event type set. -/
def emptyFormEvent (t : FormEventType) : FormEventData :=
  { eventType := t, formId := none, formName := none, urlPath := none,
    fieldName := none, fieldType := none, fieldIndex := none,
    timeOnField := none, timeSinceStart := none, errorMessage := none,
    success := none }

/-- Per-form session state held in stateRef. -/
structure FormState where
  startTime : Option Nat
  fieldStartTimes : List (String × Nat)
  hasInteracted : Bool
  lastFieldName : Option String

def initialFormState : FormState :=
  { startTime := none, fieldStartTimes := [], hasInteracted := false,
    lastFieldName := none }

/-- Map.set: replace the binding of the key or append a new one. -/
def mapSet (m : List (String × Nat)) (k : String) (v : Nat) : List (String × Nat) :=
  match m with
  | [] => [(k, v)]
  | (k2, v2) :: rest => if k2 = k then (k, v) :: rest else (k2, v2) :: mapSet rest k v

/-- Map.get on the field start-time map. -/
def mapGet (m : List (String × Nat)) (k : String) : Option Nat :=
  match m with
  | [] => none
  | (k2, v2) :: rest => if k2 = k then some v2 else mapGet rest k

/-- The JS pattern t ? now - t : undefined on a numeric timestamp (zero is
falsy). -/
def timeSince (t : Option Nat) (now : Nat) : Option Nat :=
  match t with
  | some v => if v = 0 then none else some (now - v)
  | none => none

/-- trackStart: a no-op when a start time is already recorded; otherwise
records now and emits the start event. -/
def trackStart (s : FormState) (now : Nat) : FormState × List FormEventData :=
  if s.startTime.isSome then (s, [])
  else ({ s with startTime := some now }, [emptyFormEvent FormEventType.start])

/-- trackFieldFocus: on the first interaction of the session flips the
interaction flag and runs trackStart, then records the field start time
(when timing is on), remembers the field as last focused, and emits the
field_focus event. -/
def trackFieldFocus (trackTiming : Bool) (s : FormState) (now : Nat)
    (fieldName : String) (fieldType : Option String) (fieldIndex : Option Nat) :
    FormState × List FormEventData :=
  let r1 : FormState × List FormEventData :=
    if s.hasInteracted then (s, [])
    else trackStart { s with hasInteracted := true } now
  let s2 : FormState :=
    if trackTiming then { r1.1 with fieldStartTimes := mapSet r1.1.fieldStartTimes fieldName now }
    else r1.1
  let s3 : FormState := { s2 with lastFieldName := some fieldName }
  (s3,
   r1.2 ++
     [{ emptyFormEvent FormEventType.field_focus with
        fieldName := some fieldName, fieldType := fieldType,
        fieldIndex := fieldIndex,
        timeSinceStart := timeSince s3.startTime now }])

/-- trackFieldBlur: emits the field_blur event with the recorded time on
the field; state unchanged. -/
def trackFieldBlur (s : FormState) (now : Nat) (fieldName : String)
    (fieldType : Option String) (fieldIndex : Option Nat) :
    FormState × List FormEventData :=
  (s,
   [{ emptyFormEvent FormEventType.field_blur with
      fieldName := some fieldName, fieldType := fieldType,
      fieldIndex := fieldIndex,
      timeOnField := timeSince (mapGet s.fieldStartTimes fieldName) now,
      timeSinceStart := timeSince s.startTime now }])

/-- trackFieldError: emits the field_error event; state unchanged. -/
def trackFieldError (s : FormState) (now : Nat) (fieldName errorMessage : String)
    (fieldType : Option String) (fieldIndex : Option Nat) :
    FormState × List FormEventData :=
  (s,
   [{ emptyFormEvent FormEventType.field_error with
      fieldName := some fieldName, fieldType := fieldType,
      fieldIndex := fieldIndex, errorMessage := some errorMessage,
      timeSinceStart := timeSince s.startTime now }])

/-- trackSubmit: emits the submit event and unconditionally resets state. -/
def trackSubmit (s : FormState) (now : Nat) (success : Bool) :
    FormState × List FormEventData :=
  (initialFormState,
   [{ emptyFormEvent FormEventType.submit with
      success := some success,
      timeSinceStart := timeSince s.startTime now }])

/-- trackAbandon: a no-op when the user never interacted; otherwise emits
the abandon event reporting the last-focused field; state kept. -/
def trackAbandon (s : FormState) (now : Nat) : FormState × List FormEventData :=
  if s.hasInteracted = false then (s, [])
  else
    (s,
     [{ emptyFormEvent FormEventType.abandon with
        fieldName := jsOrStr s.lastFieldName none,
        timeSinceStart := timeSince s.startTime now }])

/-- Arguments of one auto-tracked focus. -/
structure FocusArgs where
  now : Nat
  fieldName : String
  fieldType : Option String
  fieldIndex : Option Nat

/-- A session of successive field focuses starting from a given state. -/
def runFocuses (trackTiming : Bool) (s : FormState) :
    List FocusArgs → FormState × List FormEventData
  | [] => (s, [])
  | a :: rest =>
    let r1 := trackFieldFocus trackTiming s a.now a.fieldName a.fieldType a.fieldIndex
    let r2 := runFocuses trackTiming r1.1 rest
    (r2.1, r1.2 ++ r2.2)

/- ===== direct-HTTP trackers ===== -/

/-- Behaviour of the awaited fetch call: success, a synchronous throw, or
an asynchronous rejection. At an await inside try both failure forms
surface as the same caught exception. -/
inductive FetchOutcome where
  | ok
  | syncThrow (msg : String)
  | asyncReject (msg : String)
deriving DecidableEq

def awaitFetch : FetchOutcome → Except String Unit
  | FetchOutcome.ok => Except.ok ()
  | FetchOutcome.syncThrow m => Except.error m
  | FetchOutcome.asyncReject m => Except.error m

/-- A POST request handed to fetch. -/
structure PostRequest where
  url : String
  body : Obj

/-- Result of a direct-HTTP tracking call: what the returned promise does,
the console errors logged, and the request handed to fetch (if reached). -/
structure NetResult where
  outcome : Except String Unit
  consoleErrors : List String
  request : Option PostRequest

def optStrField (k : String) (v : Option String) : Obj :=
  match v with
  | some s => [(k, JVal.str s)]
  | none => []

def optNatField (k : String) (v : Option Nat) : Obj :=
  match v with
  | some n => [(k, JVal.num (Int.ofNat n))]
  | none => []

def optIntField (k : String) (v : Option Int) : Obj :=
  match v with
  | some n => [(k, JVal.num n)]
  | none => []

def optBoolField (k : String) (v : Option Bool) : Obj :=
  match v with
  | some b => [(k, JVal.bool b)]
  | none => []

def optObjField (k : String) (v : Option Obj) : Obj :=
  match v with
  | some o => [(k, JVal.obj o)]
  | none => []

/-- The payload object of trackEvent after filling the formId, formName and
urlPath defaults: an explicitly supplied key of data wins via the trailing
spread, otherwise the hook-level default. -/
def resolveFormPayload (formId : String) (formName : Option String)
    (locationPath : String) (d : FormEventData) : FormEventData :=
  { d with
    formId := some (d.formId.getD formId),
    formName := match d.formName with | some v => some v | none => formName,
    urlPath := some (d.urlPath.getD locationPath) }

/-- The JSON body posted by trackEvent; undefined fields are dropped by the
serialization. -/
def formBody (websiteId : String) (p : FormEventData) : Obj :=
  [("website", JVal.str websiteId)]
  ++ optStrField "formId" p.formId
  ++ optStrField "formName" p.formName
  ++ optStrField "urlPath" p.urlPath
  ++ [("eventType", JVal.str (formEventTypeName p.eventType))]
  ++ optStrField "fieldName" p.fieldName
  ++ optStrField "fieldType" p.fieldType
  ++ optNatField "fieldIndex" p.fieldIndex
  ++ optNatField "timeOnField" p.timeOnField
  ++ optNatField "timeSinceStart" p.timeSinceStart
  ++ optStrField "errorMessage" p.errorMessage
  ++ optBoolField "success" p.success

/-- trackEvent of useFormTracking: no-op without a window; otherwise POST
the JSON body to host/api/collect/forms inside try/catch, logging and
swallowing any failure. -/
def formTrackEvent (hasWindow : Bool) (websiteId : String) (host : Option String)
    (formId : String) (formName : Option String) (locationPath : String)
    (d : FormEventData) (fetchOutcome : FetchOutcome) : NetResult :=
  if hasWindow = false then
    { outcome := Except.ok (), consoleErrors := [], request := none }
  else
    let h := jsOrDefault host "https://entrolytics.click"
    let p := resolveFormPayload formId formName locationPath d
    let req : PostRequest := { url := h ++ "/api/collect/forms", body := formBody websiteId p }
    match awaitFetch fetchOutcome with
    | Except.ok _ =>
      { outcome := Except.ok (), consoleErrors := [], request := some req }
    | Except.error e =>
      { outcome := Except.ok (),
        consoleErrors := ["[Entrolytics] Failed to track form event: " ++ e],
        request := some req }

/- ===== web vitals (useWebVitals) ===== -/

inductive WebVitalMetric where
  | LCP
  | INP
  | CLS
  | TTFB
  | FCP
deriving DecidableEq

def webVitalMetricName : WebVitalMetric → String
  | WebVitalMetric.LCP => "LCP"
  | WebVitalMetric.INP => "INP"
  | WebVitalMetric.CLS => "CLS"
  | WebVitalMetric.TTFB => "TTFB"
  | WebVitalMetric.FCP => "FCP"

inductive WebVitalRating where
  | good
  | needsImprovement
  | poor
deriving DecidableEq

def webVitalRatingName : WebVitalRating → String
  | WebVitalRating.good => "good"
  | WebVitalRating.needsImprovement => "needs-improvement"
  | WebVitalRating.poor => "poor"

structure WebVitalData where
  metric : WebVitalMetric
  value : Int
  rating : WebVitalRating
  delta : Option Int
  id : Option String
  navigationType : Option String
  attribution : Option Obj

/-- The JSON body posted by trackVital; undefined fields are dropped by the
serialization. -/
def vitalBody (websiteId : String) (d : WebVitalData) (href path : String) : Obj :=
  [("website", JVal.str websiteId),
   ("metric", JVal.str (webVitalMetricName d.metric)),
   ("value", JVal.num d.value),
   ("rating", JVal.str (webVitalRatingName d.rating))]
  ++ optIntField "delta" d.delta
  ++ optStrField "id" d.id
  ++ optStrField "navigationType" d.navigationType
  ++ optObjField "attribution" d.attribution
  ++ [("url", JVal.str href), ("path", JVal.str path)]

/-- trackVital of useWebVitals: no-op without a window; otherwise POST the
JSON body to host/api/collect/vitals inside try/catch, logging and
swallowing any failure. -/
def trackVital (hasWindow : Bool) (websiteId : String) (host : Option String)
    (d : WebVitalData) (href path : String) (fetchOutcome : FetchOutcome) :
    NetResult :=
  if hasWindow = false then
    { outcome := Except.ok (), consoleErrors := [], request := none }
  else
    let h := jsOrDefault host DEFAULT_HOST
    let req : PostRequest :=
      { url := h ++ "/api/collect/vitals", body := vitalBody websiteId d href path }
    match awaitFetch fetchOutcome with
    | Except.ok _ =>
      { outcome := Except.ok (), consoleErrors := [], request := some req }
    | Except.error e =>
      { outcome := Except.ok (),
        consoleErrors := ["[Entrolytics] Failed to track vital: " ++ e],
        request := some req }

/- ===== zero-config Analytics component ===== -/

/-- Props of the Analytics component (env-overridable fields plus the
pass-through provider configuration). -/
structure AnalyticsProps where
  websiteId : Option String
  host : Option String
  autoTrack : Option Bool
  respectDnt : Option Bool
  domains : Option (List String)
  useEdgeRuntime : Option Bool
  tag : Option String
  excludeSearch : Option Bool
  excludeHash : Option Bool

/-- The environment the component reads: window presence, the Create React
App process env values (reachable only through window), and the Vite
import.meta env values. -/
structure AnalyticsEnv where
  hasWindow : Bool
  processEnvWebsiteId : Option String
  processEnvHost : Option String
  nodeEnvIsDevelopment : Bool
  viteWebsiteId : Option String
  viteHost : Option String
  viteDev : Bool

/-- The environment variable names the development diagnostic points at. -/
def envVarNamesInWarning : List String :=
  ["REACT_APP_ENTROLYTICS_WEBSITE_ID", "VITE_ENTROLYTICS_WEBSITE_ID"]

/-- Rendering result of Analytics: nothing (with the diagnostic emitted in
development mode), or a mounted provider with its resolved configuration. -/
inductive RenderResult where
  | nothing (diagnosticVars : Option (List String))
  | provider (cfg : ProviderConfig)

/-- isDev: NODE_ENV is development (via window.process) or import.meta DEV. -/
def isDevMode (env : AnalyticsEnv) : Bool :=
  (if env.hasWindow then env.nodeEnvIsDevelopment else false) || env.viteDev

/-- The resolved website id: prop, then the CRA env var, then the Vite env
var, each read with JS truthiness. -/
def finalWebsiteId (props : AnalyticsProps) (env : AnalyticsEnv) : Option String :=
  jsOrStr props.websiteId
    (jsOrStr (if env.hasWindow then env.processEnvWebsiteId else none)
      env.viteWebsiteId)

/-- The resolved host: prop, then the CRA env var, then the Vite env var. -/
def finalHost (props : AnalyticsProps) (env : AnalyticsEnv) : Option String :=
  jsOrStr props.host
    (jsOrStr (if env.hasWindow then env.processEnvHost else none) env.viteHost)

/-- The Analytics component: render null (warning first in development)
when no website id resolves; otherwise mount the provider, applying the
provider destructuring defaults. -/
def Analytics (props : AnalyticsProps) (env : AnalyticsEnv) : RenderResult :=
  let wid := finalWebsiteId props env
  if isDevMode env && !strTruthy wid then
    RenderResult.nothing (some envVarNamesInWarning)
  else if !strTruthy wid then
    RenderResult.nothing none
  else
    RenderResult.provider
      { websiteId := wid.getD ""
        host := (finalHost props env).getD DEFAULT_HOST
        autoTrack := props.autoTrack.getD true
        respectDnt := props.respectDnt.getD false
        domains := props.domains
        useEdgeRuntime := props.useEdgeRuntime.getD true
        tag := props.tag
        excludeSearch := props.excludeSearch.getD false
        excludeHash := props.excludeHash.getD false }

/-- The document effect of a render result: a null render mounts no
provider, so the script-injection effect never runs; a provider render
runs it. -/
def renderEffect (r : RenderResult) (hasWindow : Bool) (doc : List ScriptEl) :
    MountOutcome :=
  match r with
  | RenderResult.nothing _ =>
    { doc := doc, isReady := false, isLoaded := false, injected := false }
  | RenderResult.provider cfg => scriptInjectionEffect hasWindow doc cfg

/- ===== helper lemmas ===== -/

theorem Obj.get_append (a b : Obj) (k : String) :
    Obj.get (a ++ b) k =
      match Obj.get b k with
      | some v => some v
      | none => Obj.get a k := by
  induction a with
  | nil =>
    simp only [List.nil_append]
    cases h : Obj.get b k <;> simp [Obj.get]
  | cons x a ih =>
    obtain ⟨k2, v⟩ := x
    show Obj.get ((k2, v) :: (a ++ b)) k = _
    rw [Obj.get, ih]
    cases h : Obj.get b k <;> cases h2 : Obj.get a k <;> simp [Obj.get, h2]

theorem Obj.get_strStamp_ne (k2 k : String) (v : Option String) (h : k2 ≠ k) :
    Obj.get (strStamp k2 v) k = none := by
  cases v with
  | none => rfl
  | some s =>
    by_cases hs : s = "" <;> simp [strStamp, hs, Obj.get, h]

theorem Obj.get_strStamp_self (k s : String) (h : s ≠ "") :
    Obj.get (strStamp k (some s)) k = some (JVal.str s) := by
  simp [strStamp, h, Obj.get]

theorem countId_append (a b : List ScriptEl) (i : String) :
    countId (a ++ b) i = countId a i + countId b i := by
  simp [countId, List.filter_append]

theorem getElementById_none_countId (doc : List ScriptEl) (i : String)
    (h : getElementById doc i = none) : countId doc i = 0 := by
  rw [getElementById, List.find?_eq_none] at h
  rw [countId]
  have hnil : doc.filter (fun e => decide (e.id = i)) = [] := by
    rw [List.filter_eq_nil_iff]
    intro a ha
    simp [h a ha]
  rw [hnil]
  rfl

theorem countId_mkScript (cfg : ProviderConfig) : countId [mkScript cfg] SCRIPT_ID = 1 := by
  simp [countId, List.filter, mkScript]

theorem tryExecute_found (avail : Nat → Bool) :
    ∀ (fuel k t : Nat), (∀ m, m < k → avail (t + m) = false) →
      avail (t + k) = true → k < fuel → tryExecute avail fuel t = ([t + k], k) := by
  intro fuel
  induction fuel with
  | zero => intro k t _ _ h3; omega
  | succ f ih =>
    intro k t h1 h2 h3
    cases k with
    | zero =>
      have h0 : avail t = true := by simpa using h2
      simp [tryExecute, h0]
    | succ k2 =>
      have hat : avail t = false := by simpa using h1 0 (by omega)
      have h1b : ∀ m, m < k2 → avail ((t + 1) + m) = false := by
        intro m hm
        have := h1 (m + 1) (by omega)
        have harith : t + (m + 1) = (t + 1) + m := by omega
        rwa [harith] at this
      have h2b : avail ((t + 1) + k2) = true := by
        have harith : t + (k2 + 1) = (t + 1) + k2 := by omega
        rwa [harith] at h2
      have hr := ih k2 (t + 1) h1b h2b (by omega)
      rw [tryExecute]
      simp only [hat, if_neg, Bool.false_eq_true, not_false_iff, ite_false]
      rw [hr]
      have harith : (t + 1) + k2 = t + (k2 + 1) := by omega
      rw [harith]

theorem tryExecute_never (avail : Nat → Bool) :
    ∀ (fuel t : Nat), (∀ m, m < fuel → avail (t + m) = false) →
      tryExecute avail fuel t = ([], fuel) := by
  intro fuel
  induction fuel with
  | zero => intro t _; rfl
  | succ f ih =>
    intro t h
    have hat : avail t = false := by simpa using h 0 (by omega)
    have hb : ∀ m, m < f → avail ((t + 1) + m) = false := by
      intro m hm
      have := h (m + 1) (by omega)
      have harith : t + (m + 1) = (t + 1) + m := by omega
      rwa [harith] at this
    rw [tryExecute]
    simp only [hat, Bool.false_eq_true, not_false_iff, ite_false]
    rw [ih (t + 1) hb]

theorem trackFieldFocus_hasInteracted (tt : Bool) (s : FormState) (now : Nat)
    (fn : String) (ft : Option String) (fi : Option Nat) :
    (trackFieldFocus tt s now fn ft fi).1.hasInteracted = true := by
  by_cases h : s.hasInteracted <;>
    by_cases h2 : s.startTime.isSome <;>
      cases tt <;> simp [trackFieldFocus, trackStart, h, h2]

theorem trackFieldFocus_evTypes_interacted (tt : Bool) (s : FormState) (now : Nat)
    (fn : String) (ft : Option String) (fi : Option Nat)
    (h : s.hasInteracted = true) :
    (trackFieldFocus tt s now fn ft fi).2.map FormEventData.eventType =
      [FormEventType.field_focus] := by
  cases tt <;> simp [trackFieldFocus, emptyFormEvent, h]

theorem trackFieldFocus_evTypes_fresh (tt : Bool) (s : FormState) (now : Nat)
    (fn : String) (ft : Option String) (fi : Option Nat)
    (h : s.hasInteracted = false) (h2 : s.startTime = none) :
    (trackFieldFocus tt s now fn ft fi).2.map FormEventData.eventType =
      [FormEventType.start, FormEventType.field_focus] := by
  cases tt <;> simp [trackFieldFocus, trackStart, emptyFormEvent, h, h2]

theorem runFocuses_evTypes_interacted (tt : Bool) :
    ∀ (calls : List FocusArgs) (s : FormState), s.hasInteracted = true →
      (runFocuses tt s calls).2.map FormEventData.eventType =
        calls.map fun _ => FormEventType.field_focus := by
  intro calls
  induction calls with
  | nil => intro s _; simp [runFocuses]
  | cons a rest ih =>
    intro s h
    rw [runFocuses]
    simp only [List.map_append, List.map_cons]
    rw [trackFieldFocus_evTypes_interacted tt s a.now a.fieldName a.fieldType a.fieldIndex h,
        ih _ (trackFieldFocus_hasInteracted tt s a.now a.fieldName a.fieldType a.fieldIndex)]
    rfl

/- ===== claim theorems ===== -/

/-- Claim C1 (code evaluated at the failing input): after track("x", {a:1})
with the bridge call not yet fired, setTag("T"), tracker arrival and a poll
tick, the argument pair delivered to the track entry point of the external
tracker is the original ("x", {a:1}) and its event data carries no tag
binding at all; yet the tag reference read at bridge-invocation time is
"T" and is stamped onto the locally built payload object, which is then
discarded. The claim that the delivered payload carries tag "T" fails on
the code. -/
theorem track_tag_stamped_on_dead_local :
    (runActions none initialProvState
      [ProvAction.callOp (Call.track "x" (some [("a", JVal.num 1)])),
       ProvAction.setTag "T", ProvAction.trackerArrives, ProvAction.poll]).log =
      [Eff.bridgeTrackNamed "x" (some [("a", JVal.num 1)])] ∧
    Obj.get [("a", JVal.num 1)] "tag" = none ∧
    (runActions none initialProvState
      [ProvAction.callOp (Call.track "x" (some [("a", JVal.num 1)])),
       ProvAction.setTag "T", ProvAction.trackerArrives, ProvAction.poll]).tag =
      some "T" ∧
    trackLocalPayload none (some "T") "x" (some [("a", JVal.num 1)]) =
      some [("name", JVal.str "x"), ("data", JVal.obj [("a", JVal.num 1)]),
            ("tag", JVal.str "T")] := by
  refine ⟨rfl, rfl, rfl, ?_⟩
  simp [trackLocalPayload, builtTrackPayload, strStamp, optObjVal]

/-- Claim C2, counterexample: with a payload-transform callback configured
(the identity transform), a trackPageView dispatch reaches the bridge
without ever invoking the callback, refuting "invoked before every
dispatch". -/
theorem beforeSend_skipped_on_pageview :
    fireCall (some fun _ p => some p) none (Call.pageView (some "u") none) =
      [Eff.bridgeTrackObj [("url", JVal.str "u")]] ∧
    (fireCall (some fun _ p => some p) none
      (Call.pageView (some "u") none)).filter isBeforeSendEff = [] := by
  constructor
  · simp [fireCall, trackPageView, pageViewPayload, strStamp]
  · simp [fireCall, trackPageView, pageViewPayload, strStamp, isBeforeSendEff]

/-- Claim C2 as amended: the payload-transform callback is invoked (as the
first action, hence before the bridge call) only by the track dispatch;
trackPageView, trackRevenue, trackOutboundLink, identify and identifyUser
never invoke it. -/
theorem beforeSend_only_on_track :
    (∀ (f : BeforeSend) (tag : Option String) (n : String) (d : Option Obj),
      (track (some f) tag n d).head? =
        some (Eff.callBeforeSend "event" (builtTrackPayload n d))) ∧
    (∀ (tag u r : Option String),
      (trackPageView tag u r).filter isBeforeSendEff = []) ∧
    (∀ (tag : Option String) (n : String) (rev : Int) (cur : Option String)
        (d : Option Obj),
      (trackRevenue tag n rev cur d).filter isBeforeSendEff = []) ∧
    (∀ (u : String) (d : Option Obj),
      (trackOutboundLink u d).filter isBeforeSendEff = []) ∧
    (∀ (d : Obj), (identify d).filter isBeforeSendEff = []) ∧
    (∀ (u : String) (t : Option Obj),
      (identifyUser u t).filter isBeforeSendEff = []) := by
  refine ⟨?_, ?_, ?_, ?_, ?_, ?_⟩
  · intro f tag n d
    cases h : f "event" (builtTrackPayload n d) <;> simp [track, h]
  · intro tag u r; simp [trackPageView, isBeforeSendEff]
  · intro tag n rev cur d; simp [trackRevenue, isBeforeSendEff]
  · intro u d; simp [trackOutboundLink, isBeforeSendEff]
  · intro d; simp [identify, isBeforeSendEff]
  · intro u t; simp [identifyUser, isBeforeSendEff]

/-- Claim C3: when the configured payload-transform callback returns the
null suppress sentinel on the built payload, the track dispatch performs
only the callback invocation and no bridge effect at all. -/
theorem track_suppressed_on_null :
    ∀ (f : BeforeSend) (tag : Option String) (n : String) (d : Option Obj),
      f "event" (builtTrackPayload n d) = none →
      track (some f) tag n d =
        [Eff.callBeforeSend "event" (builtTrackPayload n d)] ∧
      (track (some f) tag n d).filter isBridgeEff = [] := by
  intro f tag n d h
  constructor
  · simp [track, h]
  · simp [track, h, isBridgeEff]

/-- A beforeSend callback that always returns the suppress sentinel. -/
def nullTransform : BeforeSend := fun _ _ => none

/-- Witness for claim C3 at a concrete suppressing transform and call. -/
theorem track_suppressed_on_null_witness :
    track (some nullTransform) none "x" (some [("a", JVal.num 1)]) =
      [Eff.callBeforeSend "event"
        (builtTrackPayload "x" (some [("a", JVal.num 1)]))] ∧
    (track (some nullTransform) none "x"
      (some [("a", JVal.num 1)])).filter isBridgeEff = [] :=
  track_suppressed_on_null nullTransform none "x" (some [("a", JVal.num 1)]) rfl

/-- Claim C4: waitForTracker in a browserless environment returns at once,
invoking nothing and scheduling no poll; with the tracker already present
it invokes the callback synchronously at tick 0, exactly once, with no
poll; when the tracker first appears at check n (observed within the
fuel bound) the callback runs exactly once, at that check, never earlier;
and while the tracker never appears the callback is never invoked. -/
theorem waitForTracker_spec :
    (∀ (avail : Nat → Bool) (fuel : Nat),
      waitForTracker false avail fuel = ([], 0)) ∧
    (∀ (avail : Nat → Bool) (fuel : Nat), avail 0 = true →
      waitForTracker true avail (fuel + 1) = ([0], 0)) ∧
    (∀ (avail : Nat → Bool) (fuel n : Nat),
      (∀ m, m < n → avail m = false) → avail n = true → n < fuel →
      waitForTracker true avail fuel = ([n], n)) ∧
    (∀ (avail : Nat → Bool) (fuel : Nat),
      (∀ m, m < fuel → avail m = false) →
      waitForTracker true avail fuel = ([], fuel)) := by
  refine ⟨?_, ?_, ?_, ?_⟩
  · intro avail fuel; simp [waitForTracker]
  · intro avail fuel h; simp [waitForTracker, tryExecute, h]
  · intro avail fuel n h1 h2 h3
    rw [waitForTracker, if_pos rfl]
    have := tryExecute_found avail fuel n 0 (by simpa using h1) (by simpa using h2) h3
    simpa using this
  · intro avail fuel h
    rw [waitForTracker, if_pos rfl]
    exact tryExecute_never avail fuel 0 (by simpa using h)

/-- An availability schedule on which the tracker appears at check 2. -/
def availAfterTwo : Nat → Bool := fun m => decide (2 ≤ m)

/-- Witness for claim C4: concrete run where the tracker appears at the
third check, plus the browserless case. -/
theorem waitForTracker_spec_witness :
    (∀ m, m < 2 → availAfterTwo m = false) ∧ availAfterTwo 2 = true ∧ 2 < 5 ∧
    waitForTracker true availAfterTwo 5 = ([2], 2) ∧
    waitForTracker false availAfterTwo 5 = ([], 0) :=
  ⟨by decide, by decide, by decide,
   waitForTracker_spec.2.2.1 availAfterTwo 5 2 (by decide) (by decide) (by decide),
   waitForTracker_spec.1 availAfterTwo 5⟩

/-- Claim C5: mounting the provider over a document that already holds the
reserved script element changes nothing in the document and reports ready
(and loaded) immediately with no injection; and the injection effect
preserves the invariant that at most one element carries the reserved
identifier. -/
theorem providerMount_no_duplicate_script :
    ∀ (doc : List ScriptEl) (cfg : ProviderConfig),
      (∀ e, getElementById doc SCRIPT_ID = some e →
        scriptInjectionEffect true doc cfg =
          { doc := doc, isReady := true, isLoaded := true, injected := false }) ∧
      (∀ hw, countId doc SCRIPT_ID ≤ 1 →
        countId (scriptInjectionEffect hw doc cfg).doc SCRIPT_ID ≤ 1) := by
  intro doc cfg
  constructor
  · intro e he
    simp [scriptInjectionEffect, he]
  · intro hw hcount
    cases hw with
    | false => simpa [scriptInjectionEffect] using hcount
    | true =>
      cases hfind : getElementById doc SCRIPT_ID with
      | some e => simpa [scriptInjectionEffect, hfind] using hcount
      | none =>
        have h0 := getElementById_none_countId doc SCRIPT_ID hfind
        simp [scriptInjectionEffect, hfind, countId_append, h0, countId_mkScript]

/-- Witness for claim C5: a concrete document already holding the script
element is left unchanged with ready reported, and the count invariant
holds on the empty document. -/
theorem providerMount_no_duplicate_script_witness :
    scriptInjectionEffect true
      [{ id := SCRIPT_ID, src := "s", deferred := true, dataset := [] }]
      { websiteId := "w", host := DEFAULT_HOST, autoTrack := true,
        respectDnt := false, domains := none, useEdgeRuntime := true,
        tag := none, excludeSearch := false, excludeHash := false } =
      { doc := [{ id := SCRIPT_ID, src := "s", deferred := true, dataset := [] }],
        isReady := true, isLoaded := true, injected := false } ∧
    countId (scriptInjectionEffect true []
      { websiteId := "w", host := DEFAULT_HOST, autoTrack := true,
        respectDnt := false, domains := none, useEdgeRuntime := true,
        tag := none, excludeSearch := false, excludeHash := false }).doc
      SCRIPT_ID ≤ 1 := by
  constructor
  · exact (providerMount_no_duplicate_script
      [{ id := SCRIPT_ID, src := "s", deferred := true, dataset := [] }]
      { websiteId := "w", host := DEFAULT_HOST, autoTrack := true,
        respectDnt := false, domains := none, useEdgeRuntime := true,
        tag := none, excludeSearch := false, excludeHash := false }).1
      { id := SCRIPT_ID, src := "s", deferred := true, dataset := [] } rfl
  · exact (providerMount_no_duplicate_script []
      { websiteId := "w", host := DEFAULT_HOST, autoTrack := true,
        respectDnt := false, domains := none, useEdgeRuntime := true,
        tag := none, excludeSearch := false, excludeHash := false }).2
      true (by decide)

/-- Claim C6: trackRevenue with the currency argument omitted dispatches to
the bridge the caller data merged with the revenue and the default
currency "USD"; the current tag is added when a (truthy) one is set, the
caller data is otherwise preserved, and the delivered eventData is exactly
the merge object. -/
theorem trackRevenue_default_currency :
    ∀ (tag : Option String) (eventName : String) (revenue : Int) (data : Obj),
      trackRevenue tag eventName revenue none (some data) =
        [Eff.bridgeTrackNamed eventName
          (some (revenueEventData tag revenue "USD" (some data)))] ∧
      Obj.get (revenueEventData tag revenue "USD" (some data)) "revenue" =
        some (JVal.num revenue) ∧
      Obj.get (revenueEventData tag revenue "USD" (some data)) "currency" =
        some (JVal.str "USD") ∧
      (∀ t, tag = some t → t ≠ "" →
        Obj.get (revenueEventData tag revenue "USD" (some data)) "tag" =
          some (JVal.str t)) ∧
      (tag = none →
        Obj.get (revenueEventData tag revenue "USD" (some data)) "tag" =
          Obj.get data "tag") ∧
      (∀ k, k ≠ "revenue" → k ≠ "currency" → k ≠ "tag" →
        Obj.get (revenueEventData tag revenue "USD" (some data)) k =
          Obj.get data k) := by
  intro tag eventName revenue data
  refine ⟨rfl, ?_, ?_, ?_, ?_, ?_⟩
  · have hs : Obj.get (strStamp "tag" tag) "revenue" = none :=
      Obj.get_strStamp_ne _ _ _ (by decide)
    simp [revenueEventData, spreadData, Obj.get_append, Obj.get, hs]
  · have hs : Obj.get (strStamp "tag" tag) "currency" = none :=
      Obj.get_strStamp_ne _ _ _ (by decide)
    simp [revenueEventData, spreadData, Obj.get_append, Obj.get, hs]
  · intro t ht htne
    subst ht
    have hs : Obj.get (strStamp "tag" (some t)) "tag" = some (JVal.str t) :=
      Obj.get_strStamp_self _ _ htne
    simp [revenueEventData, spreadData, Obj.get_append, Obj.get, hs]
  · intro ht
    subst ht
    simp [revenueEventData, spreadData, strStamp, Obj.get_append, Obj.get]
  · intro k hk1 hk2 hk3
    have hs : Obj.get (strStamp "tag" tag) k = none :=
      Obj.get_strStamp_ne _ _ _ (fun h => hk3 h.symm)
    have h1 : ("revenue" : String) ≠ k := fun h => hk1 h.symm
    have h2 : ("currency" : String) ≠ k := fun h => hk2 h.symm
    simp [revenueEventData, spreadData, Obj.get_append, Obj.get, hs, h1, h2]

/-- Witness for claim C6: trackRevenue("purchase", 10, undefined,
{sku:"abc"}) with tag "T" set delivers the merge of the caller data with
revenue 10, currency "USD" and the tag. -/
theorem trackRevenue_default_currency_witness :
    trackRevenue (some "T") "purchase" 10 none (some [("sku", JVal.str "abc")]) =
      [Eff.bridgeTrackNamed "purchase"
        (some (revenueEventData (some "T") 10 "USD"
          (some [("sku", JVal.str "abc")])))] ∧
    Obj.get (revenueEventData (some "T") 10 "USD" (some [("sku", JVal.str "abc")]))
      "revenue" = some (JVal.num 10) ∧
    Obj.get (revenueEventData (some "T") 10 "USD" (some [("sku", JVal.str "abc")]))
      "currency" = some (JVal.str "USD") ∧
    Obj.get (revenueEventData (some "T") 10 "USD" (some [("sku", JVal.str "abc")]))
      "tag" = some (JVal.str "T") ∧
    Obj.get (revenueEventData (some "T") 10 "USD" (some [("sku", JVal.str "abc")]))
      "sku" = Obj.get [("sku", JVal.str "abc")] "sku" := by
  have h := trackRevenue_default_currency (some "T") "purchase" 10
    [("sku", JVal.str "abc")]
  exact ⟨h.1, h.2.1, h.2.2.1, h.2.2.2.1 "T" rfl (by decide),
    h.2.2.2.2.2 "sku" (by decide) (by decide) (by decide)⟩

/-- Claim C7, counterexample: identifyUser("u1", {id:"evil"}) delivers a
mapping whose id field is "evil", not the userId "u1" — the traits spread
overrides the id prefix, refuting the claim for every traits mapping. -/
theorem identifyUser_traits_id_overrides :
    identifyUser "u1" (some [("id", JVal.str "evil")]) =
      [Eff.bridgeIdentify [("id", JVal.str "u1"), ("id", JVal.str "evil")]] ∧
    Obj.get [("id", JVal.str "u1"), ("id", JVal.str "evil")] "id" =
      some (JVal.str "evil") ∧
    Obj.get [("id", JVal.str "u1"), ("id", JVal.str "evil")] "id" ≠
      some (JVal.str "u1") := by
  refine ⟨rfl, rfl, ?_⟩
  simp [Obj.get]

/-- Claim C7 as amended: identifyUser forwards the traits prefixed with
an id binding for the userId to the identify entry point; the delivered
id equals the userId whenever the traits carry no id entry of their own
(a traits id entry takes precedence), and every traits entry is preserved
in the delivered mapping. -/
theorem identifyUser_prefixes_id :
    ∀ (u : String) (traits : Obj),
      identifyUser u (some traits) =
        [Eff.bridgeIdentify ([("id", JVal.str u)] ++ traits)] ∧
      identifyUser u none = [Eff.bridgeIdentify [("id", JVal.str u)]] ∧
      (Obj.get traits "id" = none →
        Obj.get ([("id", JVal.str u)] ++ traits) "id" = some (JVal.str u)) ∧
      (∀ k v, Obj.get traits k = some v →
        Obj.get ([("id", JVal.str u)] ++ traits) k = some v) := by
  intro u traits
  refine ⟨rfl, rfl, ?_, ?_⟩
  · intro h
    simp [Obj.get, h]
  · intro k v h
    simp [Obj.get, h]

/-- Witness for claim C7 as amended: traits without an id entry keep the
userId as the delivered id and their own entries. -/
theorem identifyUser_prefixes_id_witness :
    identifyUser "u1" (some [("plan", JVal.str "pro")]) =
      [Eff.bridgeIdentify [("id", JVal.str "u1"), ("plan", JVal.str "pro")]] ∧
    Obj.get [("id", JVal.str "u1"), ("plan", JVal.str "pro")] "id" =
      some (JVal.str "u1") ∧
    Obj.get [("id", JVal.str "u1"), ("plan", JVal.str "pro")] "plan" =
      some (JVal.str "pro") := by
  have h := identifyUser_prefixes_id "u1" [("plan", JVal.str "pro")]
  exact ⟨h.1, h.2.2.1 rfl, h.2.2.2 "plan" (JVal.str "pro") rfl⟩

/-- Claim C8: in a session of field focuses from the fresh form state, the
very first focus fires a start event immediately before its field_focus
event, every later focus fires only its field_focus event, and the start
event occurs exactly once in the whole session trace. -/
theorem formTracking_first_focus_start :
    ∀ (tt : Bool) (a : FocusArgs) (rest : List FocusArgs),
      (runFocuses tt initialFormState (a :: rest)).2.map FormEventData.eventType =
        FormEventType.start :: FormEventType.field_focus ::
          (rest.map fun _ => FormEventType.field_focus) ∧
      ((runFocuses tt initialFormState (a :: rest)).2.map
          FormEventData.eventType).count FormEventType.start = 1 := by
  intro tt a rest
  have hfirst := trackFieldFocus_evTypes_fresh tt initialFormState a.now
    a.fieldName a.fieldType a.fieldIndex rfl rfl
  have hstate := trackFieldFocus_hasInteracted tt initialFormState a.now
    a.fieldName a.fieldType a.fieldIndex
  have hrest := runFocuses_evTypes_interacted tt rest
    (trackFieldFocus tt initialFormState a.now a.fieldName a.fieldType
      a.fieldIndex).1 hstate
  have hmain : (runFocuses tt initialFormState (a :: rest)).2.map
      FormEventData.eventType =
      FormEventType.start :: FormEventType.field_focus ::
        (rest.map fun _ => FormEventType.field_focus) := by
    rw [runFocuses]
    simp only [List.map_append]
    rw [hfirst, hrest]
    rfl
  refine ⟨hmain, ?_⟩
  rw [hmain]
  simp [List.count_cons, List.count_replicate]

/-- Claim C9: the direct-HTTP trackers never propagate a network failure:
for every input and every fetch behaviour (success, synchronous throw,
asynchronous rejection) the promise returned by trackEvent of
useFormTracking and by trackVital of useWebVitals resolves without error,
and on failure (with a window present) exactly the catch-block console
error is logged. -/
theorem directHttp_failures_contained :
    ∀ (hw : Bool) (wid : String) (host : Option String) (fid : String)
      (fn : Option String) (lp : String) (d : FormEventData)
      (o : FetchOutcome) (wid2 : String) (host2 : Option String)
      (vd : WebVitalData) (href path : String) (o2 : FetchOutcome),
      (formTrackEvent hw wid host fid fn lp d o).outcome = Except.ok () ∧
      (trackVital hw wid2 host2 vd href path o2).outcome = Except.ok () ∧
      (∀ e, (o = FetchOutcome.syncThrow e ∨ o = FetchOutcome.asyncReject e) →
        hw = true →
        (formTrackEvent hw wid host fid fn lp d o).consoleErrors =
          ["[Entrolytics] Failed to track form event: " ++ e]) ∧
      (∀ e, (o2 = FetchOutcome.syncThrow e ∨ o2 = FetchOutcome.asyncReject e) →
        hw = true →
        (trackVital hw wid2 host2 vd href path o2).consoleErrors =
          ["[Entrolytics] Failed to track vital: " ++ e]) := by
  intro hw wid host fid fn lp d o wid2 host2 vd href path o2
  refine ⟨?_, ?_, ?_, ?_⟩
  · cases hw <;> cases o <;> simp [formTrackEvent, awaitFetch]
  · cases hw <;> cases o2 <;> simp [trackVital, awaitFetch]
  · intro e he hww
    subst hww
    rcases he with h | h <;> subst h <;> simp [formTrackEvent, awaitFetch]
  · intro e he hww
    subst hww
    rcases he with h | h <;> subst h <;> simp [trackVital, awaitFetch]

/-- Witness for claim C9: a synchronous throw in the form tracker and an
asynchronous rejection in the vitals tracker are both contained and
logged. -/
theorem directHttp_failures_contained_witness :
    (formTrackEvent true "w" none "f" none "/p" (emptyFormEvent FormEventType.start)
      (FetchOutcome.syncThrow "boom")).outcome = Except.ok () ∧
    (formTrackEvent true "w" none "f" none "/p" (emptyFormEvent FormEventType.start)
      (FetchOutcome.syncThrow "boom")).consoleErrors =
      ["[Entrolytics] Failed to track form event: " ++ "boom"] ∧
    (trackVital true "w" none
      { metric := WebVitalMetric.LCP, value := 100, rating := WebVitalRating.good,
        delta := none, id := none, navigationType := none, attribution := none }
      "https://a/p" "/p" (FetchOutcome.asyncReject "down")).outcome =
      Except.ok () ∧
    (trackVital true "w" none
      { metric := WebVitalMetric.LCP, value := 100, rating := WebVitalRating.good,
        delta := none, id := none, navigationType := none, attribution := none }
      "https://a/p" "/p" (FetchOutcome.asyncReject "down")).consoleErrors =
      ["[Entrolytics] Failed to track vital: " ++ "down"] := by
  have h := directHttp_failures_contained true "w" none "f" none "/p"
    (emptyFormEvent FormEventType.start) (FetchOutcome.syncThrow "boom") "w" none
    { metric := WebVitalMetric.LCP, value := 100, rating := WebVitalRating.good,
      delta := none, id := none, navigationType := none, attribution := none }
    "https://a/p" "/p" (FetchOutcome.asyncReject "down")
  exact ⟨h.1, h.2.2.1 "boom" (Or.inl rfl) rfl, h.2.1,
    h.2.2.2 "down" (Or.inr rfl) rfl⟩

/-- Claim C10: with no truthy website id from the prop, the Create React
App env var or the Vite env var, the Analytics component renders nothing
and its render performs no script injection and leaves the document
untouched; in development mode it renders nothing with the diagnostic
naming both expected env vars, and outside development mode it renders
nothing silently. -/
theorem analytics_missing_website_id :
    ∀ (props : AnalyticsProps) (env : AnalyticsEnv) (doc : List ScriptEl),
      strTruthy props.websiteId = false →
      strTruthy env.processEnvWebsiteId = false →
      strTruthy env.viteWebsiteId = false →
      (∃ diag, Analytics props env = RenderResult.nothing diag) ∧
      renderEffect (Analytics props env) env.hasWindow doc =
        { doc := doc, isReady := false, isLoaded := false, injected := false } ∧
      (isDevMode env = true →
        Analytics props env = RenderResult.nothing (some envVarNamesInWarning) ∧
        "REACT_APP_ENTROLYTICS_WEBSITE_ID" ∈ envVarNamesInWarning ∧
        "VITE_ENTROLYTICS_WEBSITE_ID" ∈ envVarNamesInWarning) ∧
      (isDevMode env = false → Analytics props env = RenderResult.nothing none) := by
  intro props env doc h1 h2 h3
  have hb : strTruthy (if env.hasWindow then env.processEnvWebsiteId else none) =
      false := by
    cases henv : env.hasWindow
    · simp [henv, strTruthy]
    · simpa [henv] using h2
  have hwid : strTruthy (finalWebsiteId props env) = false := by
    rw [finalWebsiteId, jsOrStr, h1, if_neg (by simp), jsOrStr, hb,
      if_neg (by simp)]
    exact h3
  have hnull : Analytics props env =
      (if isDevMode env then RenderResult.nothing (some envVarNamesInWarning)
       else RenderResult.nothing none) := by
    cases hdev : isDevMode env <;> simp [Analytics, hwid, hdev]
  refine ⟨?_, ?_, ?_, ?_⟩
  · cases hdev : isDevMode env <;> rw [hnull, hdev] <;> simp
  · cases hdev : isDevMode env <;> rw [hnull, hdev] <;> simp [renderEffect]
  · intro hdev
    rw [hnull, hdev]
    exact ⟨by simp, by simp [envVarNamesInWarning], by simp [envVarNamesInWarning]⟩
  · intro hdev
    rw [hnull, hdev]
    simp

/-- Witness for claim C10: empty props and a development-mode Vite
environment with no website id render nothing with the diagnostic, and the
document is untouched. -/
theorem analytics_missing_website_id_witness :
    Analytics
      { websiteId := none, host := none, autoTrack := none, respectDnt := none,
        domains := none, useEdgeRuntime := none, tag := none,
        excludeSearch := none, excludeHash := none }
      { hasWindow := true, processEnvWebsiteId := none, processEnvHost := none,
        nodeEnvIsDevelopment := false, viteWebsiteId := none, viteHost := none,
        viteDev := true } =
      RenderResult.nothing (some envVarNamesInWarning) ∧
    renderEffect (Analytics
      { websiteId := none, host := none, autoTrack := none, respectDnt := none,
        domains := none, useEdgeRuntime := none, tag := none,
        excludeSearch := none, excludeHash := none }
      { hasWindow := true, processEnvWebsiteId := none, processEnvHost := none,
        nodeEnvIsDevelopment := false, viteWebsiteId := none, viteHost := none,
        viteDev := true }) true [] =
      { doc := [], isReady := false, isLoaded := false, injected := false } := by
  have h := analytics_missing_website_id
    { websiteId := none, host := none, autoTrack := none, respectDnt := none,
      domains := none, useEdgeRuntime := none, tag := none,
      excludeSearch := none, excludeHash := none }
    { hasWindow := true, processEnvWebsiteId := none, processEnvHost := none,
      nodeEnvIsDevelopment := false, viteWebsiteId := none, viteHost := none,
      viteDev := true } [] rfl rfl rfl
  exact ⟨(h.2.2.1 rfl).1, h.2.1⟩

end Entrolytics
